import Mathlib

/-!
Verification of the discord-ext-modules extension manager
(file src/discord/ext/modules/modular_client.py) against its
natural-language specification.

The Python module is shallowly embedded below:

* Command trees (the objects walked by CommandCollection._get_all_children)
  become the inductive type Cmd.
* The callback wrapper produced inside
  CommandCollection._wrap_callback_with_check becomes the pure function
  cmd_with_collection_check, instrumented with an explicit list of the
  calls it performs so that how often each hook runs is provable.
* The client state mutated by ModularCommandClientBase becomes the record
  ClientState; every method that mutates state and may raise becomes a
  function returning the post-state paired with an optional raised
  exception (the post-state is the state at the moment the exception
  propagates, matching Python's mutate-then-raise behaviour).
* Python exceptions become the inductive type PyErr: one constructor per
  exception class declared in the module, one for the builtin KeyError
  raised by dict subscripting and set removal, and one for arbitrary
  exceptions raised by user code (setup functions and hooks).
* Python dicts become association lists with insertion order; Python sets
  become duplicate-free string lists; str.lower becomes pyLower.
-/

/-- Model of Python str.lower for the ASCII collection and extension names
used by the library: lower-cases every character of the string. -/
def pyLower (s : String) : String := ⟨s.data.map Char.toLower⟩

/-- Python exceptions visible to this module: the exception classes declared
in modular_client.py (lines 28-60), the builtin KeyError, and a constructor
for arbitrary exceptions raised by user-supplied code. Every constructor
carries the message string the code builds for it. -/
inductive PyErr : Type where
  | moduleSetup (msg : String)
  | moduleAlreadyLoaded (msg : String)
  | moduleNotLoaded (msg : String)
  | collectionSetup (msg : String)
  | collectionAlreadyLoaded (msg : String)
  | collectionNotLoaded (msg : String)
  | keyError (key : String)
  | pyException (msg : String)
deriving DecidableEq

/-- Python str(exception): the message the exception was constructed with
(for KeyError, the missing key). -/
def PyErr.msg : PyErr → String
  | .moduleSetup m => m
  | .moduleAlreadyLoaded m => m
  | .moduleNotLoaded m => m
  | .collectionSetup m => m
  | .collectionAlreadyLoaded m => m
  | .collectionNotLoaded m => m
  | .keyError k => k
  | .pyException m => m

/-- Whether the exception is an instance of ModularCommandClientException,
i.e. one of the error classes the library itself declares (lines 28-60).
The builtin KeyError and arbitrary user exceptions are not. -/
def PyErr.isModularClientException : PyErr → Bool
  | .moduleSetup _ => true
  | .moduleAlreadyLoaded _ => true
  | .moduleNotLoaded _ => true
  | .collectionSetup _ => true
  | .collectionAlreadyLoaded _ => true
  | .collectionNotLoaded _ => true
  | .keyError _ => false
  | .pyException _ => false

/-! ## Command trees and the tree walker -/

/-- An application command: a name and the ordered list of child commands
(the values of the Python dict command._children_, in declaration order).
Only the tree structure matters to _get_all_children and to the
construction-time wrapping loop, so callbacks are not stored here; the
wrapping loop is modelled by collectionWrapTargets below. -/
inductive Cmd : Type where
  | mk : String → List Cmd → Cmd

/-- The child list of a command (the values of command._children_). -/
def Cmd.children : Cmd → List Cmd
  | .mk _ cs => cs

/-- The name of a command (command._name_). -/
def Cmd.cname : Cmd → String
  | .mk n _ => n

/-- The loop body of CommandCollection._get_all_children (lines 119-129)
over a list of children: for each child, append the child, and if the child
itself has children, extend with the recursive result on them. -/
def getAllChildrenList : List Cmd → List Cmd
  | [] => []
  | Cmd.mk n cs :: rest =>
      (Cmd.mk n cs :: (if cs.isEmpty then [] else getAllChildrenList cs))
        ++ getAllChildrenList rest

/-- CommandCollection._get_all_children (lines 119-129): the list of all
descendants of the given command, produced by recursing into each child
that has children of its own. -/
def getAllChildren (command : Cmd) : List Cmd :=
  getAllChildrenList command.children

/-- Modelled from the spec: the parent-before-children, siblings-in-order
enumeration of all strict descendants of the commands in the list, written
independently of the source to compare the walker against (spec section
4.3: all descendants reachable through the children relation, each parent
visited before its children, siblings in declaration order). -/
def preorderDescendantsList : List Cmd → List Cmd
  | [] => []
  | Cmd.mk n cs :: rest =>
      Cmd.mk n cs :: (preorderDescendantsList cs ++ preorderDescendantsList rest)

/-- Modelled from the spec: all strict descendants of a command in
parent-before-children order, siblings in declaration order. -/
def preorderDescendants (c : Cmd) : List Cmd :=
  preorderDescendantsList c.children

/-- A command together with all its descendants, the command first. -/
def allNodes (c : Cmd) : List Cmd :=
  c :: preorderDescendants c

/-- Nesting depth of the recursive self-calls _get_all_children performs
while walking the given child list: a child with children contributes a
call one level deeper than the calls below it. This instruments the call
structure of getAllChildrenList, whose recursion the definition mirrors. -/
def recursionDepthList : List Cmd → Nat
  | [] => 0
  | Cmd.mk _ cs :: rest =>
      max (if cs.isEmpty then 0 else 1 + recursionDepthList cs)
        (recursionDepthList rest)

/-- Nesting depth of recursive calls of _get_all_children on a whole
command: the outer call plus the deepest chain of self-calls below it. -/
def recursionDepth (c : Cmd) : Nat :=
  1 + recursionDepthList c.children

/-- A linear command tree of the given depth: chainCmd 0 is a leaf,
chainCmd (n+1) has the single child chainCmd n. -/
def chainCmd : Nat → Cmd
  | 0 => Cmd.mk "leaf" []
  | n + 1 => Cmd.mk "node" [chainCmd n]

/-- Default of the check_children option of CommandCollection.__init__
(line 81). -/
def check_children_default : Bool := true

/-- The commands CommandCollection.__init__ (lines 95-101) applies
_wrap_callback_with_check to, in application order: for each top-level
command, the command itself, then - when check_children is set - every
command returned by _get_all_children for it. -/
def collectionWrapTargets (check_children : Bool) (commands : List Cmd) :
    List Cmd :=
  commands.flatMap (fun cmd =>
    cmd :: (if check_children then getAllChildren cmd else []))

/-! ## The callback wrapper -/

/-- One call performed by the wrapped callback: running the collection
check, running the check-error handler, or running the original callback. -/
inductive CallEvent (Ctx ε : Type) : Type where
  | checkCall (c : Ctx)
  | errorHookCall (c : Ctx) (e : ε)
  | callbackCall (c : Ctx)
deriving DecidableEq

/-- The wrapper built by CommandCollection._wrap_callback_with_check
(lines 103-117): run collection_check on the invocation context; if it
raises, return the result of handle_collection_check_error on the context
and the exception; otherwise return the result of the original callback.
Alongside the result, the list of hook and callback calls the wrapper
performs is returned, mirroring its control flow, so that invocation
counts are provable. Awaiting and maybe_coroutine collapse away in this
single-threaded deterministic model. -/
def cmd_with_collection_check {Ctx ε ρ : Type}
    (collection_check : Ctx → Except ε Unit)
    (handle_collection_check_error : Ctx → ε → Except ε ρ)
    (callback : Ctx → Except ε ρ)
    (cmd : Ctx) : Except ε ρ × List (CallEvent Ctx ε) :=
  match collection_check cmd with
  | .error ex =>
      (handle_collection_check_error cmd ex,
        [CallEvent.checkCall cmd, CallEvent.errorHookCall cmd ex])
  | .ok _ =>
      (callback cmd, [CallEvent.checkCall cmd, CallEvent.callbackCall cmd])

/-! ## Collections, modules and the client state -/

instance {ε α : Type} [DecidableEq ε] [DecidableEq α] :
    DecidableEq (Except ε α) := fun a b => by
  cases a <;> cases b
  case error.error e f => exact decidable_of_iff (e = f) (by simp)
  case error.ok => exact isFalse (by simp)
  case ok.error => exact isFalse (by simp)
  case ok.ok x y => exact decidable_of_iff (x = y) (by simp)

/-- A constructed CommandCollection as the registry sees it (lines 63-156):
the concrete class name, the resolved name and description, the names of
its top-level commands in order, and the outcome of calling its on_unload
hook (ok for the default no-op body, error when a subclass hook raises).
The callback-wrapping aspect of its constructor is modelled separately by
collectionWrapTargets. -/
structure Collection : Type where
  className : String
  name : String
  description : String
  commands : List String
  on_unload : Except PyErr Unit
deriving DecidableEq

/-- CommandCollection.__repr__ (lines 155-156). -/
def Collection.reprStr (c : Collection) : String :=
  "<" ++ c.className ++ " name=" ++ c.name ++ " commands="
    ++ toString c.commands.length ++ ">"

/-- An imported Python module as load_extension sees it: its repr string
and its setup attribute - none when the module has no setup function,
otherwise the outcome of calling setup(client): the list of collections it
returns, or the exception it raises. -/
structure PyModule : Type where
  mrepr : String
  setup : Option (Except PyErr (List Collection))
deriving DecidableEq

/-- The mutable state of ModularCommandClientBase (lines 161-167) plus the
observable effects on the external dispatch collaborator: commands
forwarded to application_command, and whether the superclass close ran.
Dicts are association lists in insertion order; the unloaded-extension set
is a duplicate-free list. -/
structure ClientState : Type where
  command_collections : List (String × Collection)
  module_cache : List (String × PyModule)
  collections_cache : List (String × List Collection)
  unloaded_extensions : List String
  added_commands : List String
  dispatch_closed : Bool
deriving DecidableEq

/-- The state right after ModularCommandClientBase.__init__. -/
def initialClientState : ClientState :=
  { command_collections := []
    module_cache := []
    collections_cache := []
    unloaded_extensions := []
    added_commands := []
    dispatch_closed := false }

/-- The import machinery load_extension delegates to:
importlib.import_module and importlib.reload, each returning a module or
raising. -/
structure PyEnv : Type where
  import_module : String → Except PyErr PyModule
  reload : PyModule → Except PyErr PyModule

/-- Python dict lookup d.get(k) on an association list. -/
def assocLookup {α : Type} (k : String) : List (String × α) → Option α
  | [] => none
  | (k', v) :: rest => if k' = k then some v else assocLookup k rest

/-- Python dict assignment d[k] = v: replace in place if the key is
present, else append, preserving insertion order. -/
def assocInsert {α : Type} (k : String) (v : α) :
    List (String × α) → List (String × α)
  | [] => [(k, v)]
  | (k', v') :: rest =>
      if k' = k then (k, v) :: rest else (k', v') :: assocInsert k v rest

/-- Python dict deletion del d[k]: a dict never holds a key twice, so this
is removal of every pair with that key. -/
def assocErase {α : Type} (k : String) (l : List (String × α)) :
    List (String × α) :=
  l.filter (fun p => p.1 != k)

/-- Python set add: insert the element unless already present. -/
def pySetAdd (x : String) (l : List String) : List String :=
  if l.contains x then l else x :: l

/-! ## The registry and lifecycle operations

Each operation returns the post-state paired with the raised exception, if
any: the post-state on the error side is the state at the moment the
exception propagates, since Python mutations before a raise persist. -/

/-- ModularCommandClientBase.load_command_collection (lines 267-288):
key the collection by its lower-cased name; fail with
CollectionAlreadyLoadedException if the key is present; otherwise forward
every top-level command to application_command and insert the entry. -/
def load_command_collection (st : ClientState) (collection : Collection) :
    ClientState × Option PyErr :=
  let collection_name := pyLower collection.name
  if (assocLookup collection_name st.command_collections).isSome then
    (st, some (PyErr.collectionAlreadyLoaded
      ("Collection " ++ collection.reprStr ++ " is already loaded")))
  else
    ({ st with
        added_commands := st.added_commands ++ collection.commands
        command_collections :=
          st.command_collections ++ [(collection_name, collection)] },
      none)

/-- ModularCommandClientBase.unload_command_collection (lines 290-313):
fail with CollectionNotLoadedException if the lower-cased name is not a
key; call on_unload (an exception it raises propagates, before any state
change); then delete the registry entry. Command removal from the
dispatch collaborator is absent in the source (the commented-out block at
lines 309-311). -/
def unload_command_collection (st : ClientState) (collection : Collection) :
    ClientState × Option PyErr :=
  let collection_name := pyLower collection.name
  if (assocLookup collection_name st.command_collections).isNone then
    (st, some (PyErr.collectionNotLoaded
      ("Collection " ++ collection.reprStr ++ " is not loaded")))
  else
    match collection.on_unload with
    | .error e => (st, some e)
    | .ok _ =>
        ({ st with
            command_collections :=
              assocErase collection_name st.command_collections },
          none)

/-- ModularCommandClientBase.get_command_collection (lines 255-265):
subscript the registry dict with the lower-cased name; a missing key makes
the dict subscript raise the builtin KeyError. -/
def get_command_collection (st : ClientState) (collection_name : String) :
    Except PyErr Collection :=
  match assocLookup (pyLower collection_name) st.command_collections with
  | some c => .ok c
  | none => .error (PyErr.keyError (pyLower collection_name))

/-- The loop of load_extension lines 214-216: load each returned collection
in order; an exception from load_command_collection propagates at once,
keeping the mutations made for the earlier collections. -/
def load_collections_loop :
    ClientState → List Collection → ClientState × Option PyErr
  | st, [] => (st, none)
  | st, c :: rest =>
      match load_command_collection st c with
      | (st', some e) => (st', some e)
      | (st', none) => load_collections_loop st' rest

/-- Lines 195-203 of load_extension: obtain the module to set up. A never
seen name is imported. A cached name not marked unloaded raises
ModuleAlreadyLoadedException. A cached name marked unloaded is removed
from the unloaded set first, then the cached module is re-imported via
importlib.reload and the cache updated. -/
def resolveModule (env : PyEnv) (st : ClientState) (extension_name : String) :
    ClientState × Except PyErr PyModule :=
  if (assocLookup extension_name st.module_cache).isNone then
    match env.import_module extension_name with
    | .error e => (st, .error e)
    | .ok m => (st, .ok m)
  else if st.unloaded_extensions.contains extension_name = false then
    (st, .error (PyErr.moduleAlreadyLoaded
      ("Module " ++ extension_name ++ " is already loaded")))
  else
    match assocLookup extension_name st.module_cache with
    | none => (st, .error (PyErr.keyError extension_name))
    | some m =>
        let st1 : ClientState :=
          { st with
              unloaded_extensions :=
                st.unloaded_extensions.erase extension_name }
        match env.reload m with
        | .error e => (st1, .error e)
        | .ok m2 =>
            ({ st1 with
                module_cache := assocInsert extension_name m2 st1.module_cache },
              .ok m2)

/-- ModularCommandClientBase.load_extension (lines 169-219): resolve the
module (see resolveModule); raise ModuleSetupException if it has no setup
attribute; call setup, re-raising any exception as ModuleSetupException
carrying the original message; load each returned collection in order;
finally cache the module and the collection list under the name. -/
def load_extension (env : PyEnv) (st : ClientState) (extension_name : String) :
    ClientState × Option PyErr :=
  match resolveModule env st extension_name with
  | (st1, .error e) => (st1, some e)
  | (st1, .ok m) =>
      match m.setup with
      | none =>
          (st1, some (PyErr.moduleSetup
            ("Module " ++ m.mrepr ++ " does not have a setup function")))
      | some (.error e) =>
          (st1, some (PyErr.moduleSetup
            ("Module " ++ m.mrepr ++ " setup function raised: " ++ e.msg)))
      | some (.ok command_collections) =>
          match load_collections_loop st1 command_collections with
          | (st2, some e) => (st2, some e)
          | (st2, none) =>
              ({ st2 with
                  module_cache := assocInsert extension_name m st2.module_cache
                  collections_cache :=
                    assocInsert extension_name command_collections
                      st2.collections_cache },
                none)

/-- The loop of unload_extension lines 238-240: unload each cached
collection in order; an exception propagates at once. -/
def unload_collections_loop :
    ClientState → List Collection → ClientState × Option PyErr
  | st, [] => (st, none)
  | st, c :: rest =>
      match unload_command_collection st c with
      | (st', some e) => (st', some e)
      | (st', none) => unload_collections_loop st' rest

/-- ModularCommandClientBase.unload_extension (lines 221-242): raise
ModuleNotLoadedException if the name was never cached or is marked
unloaded; read the cached collection list (a missing cache entry would
raise the builtin KeyError); unload each collection in order; finally add
the name to the unloaded set. -/
def unload_extension (st : ClientState) (extension_name : String) :
    ClientState × Option PyErr :=
  if (assocLookup extension_name st.module_cache).isNone
      || st.unloaded_extensions.contains extension_name then
    (st, some (PyErr.moduleNotLoaded
      ("Module " ++ extension_name ++ " is not loaded")))
  else
    match assocLookup extension_name st.collections_cache with
    | none => (st, some (PyErr.keyError extension_name))
    | some command_collections =>
        match unload_collections_loop st command_collections with
        | (st', some e) => (st', some e)
        | (st', none) =>
            ({ st' with
                unloaded_extensions :=
                  pySetAdd extension_name st'.unloaded_extensions },
              none)

/-- ModularCommandClientBase.reload_extension (lines 244-253):
unload_extension then load_extension, the second step reached only when
the first succeeds. -/
def reload_extension (env : PyEnv) (st : ClientState)
    (extension_name : String) : ClientState × Option PyErr :=
  match unload_extension st extension_name with
  | (st1, some e) => (st1, some e)
  | (st1, none) => load_extension env st1 extension_name

/-- The loop of ModularCommandClientBase.close (lines 317-321): over a
snapshot of the registry items, try to unload each collection, discarding
any exception. -/
def close_loop : ClientState → List (String × Collection) → ClientState
  | st, [] => st
  | st, (_, c) :: rest => close_loop (unload_command_collection st c).1 rest

/-- ModularCommandClientBase.close (lines 315-323): best-effort unload of
every registered collection over a snapshot of the registry, every
exception discarded, then the superclass (dispatch collaborator) close. -/
def close (st : ClientState) : ClientState :=
  let st1 := close_loop st st.command_collections
  { st1 with dispatch_closed := true }

/-! ## Registry operation sequences (for the uniqueness invariant) -/

/-- One registry operation: registering or unregistering a collection. -/
inductive RegOp : Type where
  | register (c : Collection)
  | unregister (c : Collection)

/-- Apply one registry operation, keeping the post-state whether or not the
operation raised. -/
def applyRegOp (st : ClientState) : RegOp → ClientState
  | .register c => (load_command_collection st c).1
  | .unregister c => (unload_command_collection st c).1

/-- Apply a sequence of registry operations from left to right. -/
def applyRegOps : ClientState → List RegOp → ClientState
  | st, [] => st
  | st, op :: rest => applyRegOps (applyRegOp st op) rest

/-- The registry invariant of spec section 3: every entry is keyed by the
lower-cased name of its collection, and no key occurs twice. -/
def RegInv (st : ClientState) : Prop :=
  (st.command_collections.map Prod.fst).Nodup ∧
    ∀ p ∈ st.command_collections, p.1 = pyLower p.2.name

/-! ## Concrete instances used by the witnesses and counterexamples -/

/-- A check hook that rejects invocation context 0 and passes any other. -/
def chkW : Nat → Except String Unit :=
  fun n => if n = 0 then .error "denied" else .ok ()

/-- An error hook returning a reply built from the failing check message. -/
def errhW : Nat → String → Except String String :=
  fun _ e => .ok ("handled:" ++ e)

/-- An original callback that simply reports success. -/
def funW : Nat → Except String String :=
  fun _ => .ok "ran"

/-- Leaf command of the three-level example tree. -/
def thirdLevelCmd : Cmd := Cmd.mk "bottom" []

/-- Middle command of the three-level example tree. -/
def secondLevelCmd : Cmd := Cmd.mk "mid" [thirdLevelCmd]

/-- Root of the three-level example tree: a command with two levels of
nested children. -/
def threeLevelCmd : Cmd := Cmd.mk "top" [secondLevelCmd]

/-- A collection named Foo. -/
def collFoo : Collection :=
  { className := "FooCollection", name := "Foo", description := "first"
    commands := ["foo"], on_unload := .ok () }

/-- A collection whose name differs from Foo only by case. -/
def collFOO : Collection :=
  { className := "ShoutingFooCollection", name := "FOO"
    description := "second", commands := ["foo2"], on_unload := .ok () }

/-- The state with collFoo registered. -/
def stC2 : ClientState := (load_command_collection initialClientState collFoo).1

/-- A module whose setup returns no collections. -/
def mC3 : PyModule := { mrepr := "<module ext>", setup := some (.ok []) }

/-- A state in which extension ext is cached and not marked unloaded. -/
def stC3 : ClientState :=
  { initialClientState with module_cache := [("ext", mC3)] }

/-- An import environment whose members are never reached in the
already-loaded scenario. -/
def envC3 : PyEnv :=
  { import_module := fun _ => .error (.pyException "unused")
    reload := fun m => .ok m }

/-- The collection the greetings extension produced on its first load. -/
def collC4 : Collection :=
  { className := "HelloCollection", name := "hello", description := "greets"
    commands := ["hello"], on_unload := .ok () }

/-- The greetings module as first imported: setup succeeds. -/
def modC4ok : PyModule :=
  { mrepr := "<module greetings>", setup := some (.ok [collC4]) }

/-- The greetings module after editing: its setup function raises. -/
def modC4bad : PyModule :=
  { mrepr := "<module greetings>"
    setup := some (.error (.pyException "boom")) }

/-- An environment in which re-importing greetings yields the broken
version. -/
def envC4 : PyEnv :=
  { import_module := fun _ => .error (.pyException "unused")
    reload := fun _ => .ok modC4bad }

/-- The state after the first successful load of greetings. -/
def stC4 : ClientState :=
  { command_collections := [("hello", collC4)]
    module_cache := [("greetings", modC4ok)]
    collections_cache := [("greetings", [collC4])]
    unloaded_extensions := []
    added_commands := ["hello"]
    dispatch_closed := false }

/-- The state after unloading greetings from stC4. -/
def stC4u : ClientState := (unload_extension stC4 "greetings").1

/-- The state after the failing load step of the reload of greetings. -/
def stC4f : ClientState := (load_extension envC4 stC4u "greetings").1

/-- A registered collection named Hello. -/
def collHello : Collection :=
  { className := "HelloCollection", name := "Hello", description := "hi"
    commands := ["hi"], on_unload := .ok () }

/-- A state with collHello registered under its lowercase key. -/
def stC6 : ClientState :=
  { initialClientState with command_collections := [("hello", collHello)] }

/-- A module whose setup function raises. -/
def modC7 : PyModule :=
  { mrepr := "<module broken>"
    setup := some (.error (.pyException "db down")) }

/-- An environment importing the broken module. -/
def envC7 : PyEnv :=
  { import_module := fun _ => .ok modC7, reload := fun m => .ok m }

/-- A collection whose unload hook succeeds. -/
def collGood : Collection :=
  { className := "GoodCollection", name := "good", description := "fine"
    commands := ["g"], on_unload := .ok () }

/-- A collection whose unload hook raises. -/
def collBad : Collection :=
  { className := "BadCollection", name := "bad", description := "broken"
    commands := ["b"], on_unload := .error (.pyException "cleanup failed") }

/-- A state with the raising collection registered before the clean one. -/
def stC8 : ClientState :=
  { initialClientState with
      command_collections := [("bad", collBad), ("good", collGood)] }

/-- A collection whose unload hook raises while cancelling tasks. -/
def collRaise : Collection :=
  { className := "TaskCollection", name := "tasks", description := "tasks"
    commands := ["t"], on_unload := .error (.pyException "cancel failed") }

/-- A state with collRaise registered. -/
def stC10 : ClientState :=
  { initialClientState with command_collections := [("tasks", collRaise)] }

/-! ## Helper lemmas -/

theorem assocLookup_eq_none_iff {α : Type} (k : String)
    (l : List (String × α)) :
    assocLookup k l = none ↔ k ∉ l.map Prod.fst := by
  induction l with
  | nil => simp [assocLookup]
  | cons p rest ih =>
    obtain ⟨k', v⟩ := p
    by_cases h : k' = k
    · subst h
      simp [assocLookup]
    · simp [assocLookup, h, ih, Ne.symm h]

theorem assocLookup_assocErase_self {α : Type} (k : String)
    (l : List (String × α)) :
    assocLookup k (assocErase k l) = none := by
  rw [assocLookup_eq_none_iff]
  intro hmem
  obtain ⟨p, hp, hk⟩ := List.mem_map.mp hmem
  have := List.mem_filter.mp hp
  simp [hk] at this

theorem assocErase_lookup_none {α : Type} (k k' : String)
    (l : List (String × α)) (h : assocLookup k l = none) :
    assocLookup k (assocErase k' l) = none := by
  rw [assocLookup_eq_none_iff] at h ⊢
  intro hmem
  obtain ⟨p, hp, hk⟩ := List.mem_map.mp hmem
  exact h (List.mem_map.mpr ⟨p, (List.mem_filter.mp hp).1, hk⟩)

theorem assocLookup_assocInsert_self {α : Type} (k : String) (v : α)
    (l : List (String × α)) :
    assocLookup k (assocInsert k v l) = some v := by
  induction l with
  | nil => simp [assocInsert, assocLookup]
  | cons p rest ih =>
    obtain ⟨k', v'⟩ := p
    by_cases h : k' = k
    · subst h
      simp [assocInsert, assocLookup]
    · simp [assocInsert, assocLookup, h, ih]

theorem getAllChildrenList_eq_preorder (l : List Cmd) :
    getAllChildrenList l = preorderDescendantsList l := by
  induction l using getAllChildrenList.induct with
  | case1 => simp [getAllChildrenList, preorderDescendantsList]
  | case2 n cs rest ih1 ih2 =>
    by_cases h : cs.isEmpty
    · have hcs : cs = [] := by simpa [List.isEmpty_iff] using h
      subst hcs
      simp [getAllChildrenList, preorderDescendantsList, ih2]
    · simp [getAllChildrenList, preorderDescendantsList, h, ih1, ih2]

theorem recursionDepthList_chain (n : Nat) :
    recursionDepthList [chainCmd n] = n := by
  induction n with
  | zero => simp [chainCmd, recursionDepthList]
  | succ n ih =>
    simp [chainCmd, recursionDepthList, ih]
    omega

theorem load_command_collection_preserves (st : ClientState) (c : Collection) :
    ((load_command_collection st c).1).module_cache = st.module_cache ∧
    ((load_command_collection st c).1).collections_cache = st.collections_cache ∧
    ((load_command_collection st c).1).unloaded_extensions = st.unloaded_extensions ∧
    ((load_command_collection st c).1).dispatch_closed = st.dispatch_closed := by
  by_cases h : (assocLookup (pyLower c.name) st.command_collections).isSome <;>
    simp [load_command_collection, h]

theorem unload_command_collection_preserves (st : ClientState) (c : Collection) :
    ((unload_command_collection st c).1).module_cache = st.module_cache ∧
    ((unload_command_collection st c).1).collections_cache = st.collections_cache ∧
    ((unload_command_collection st c).1).unloaded_extensions = st.unloaded_extensions ∧
    ((unload_command_collection st c).1).dispatch_closed = st.dispatch_closed := by
  by_cases h : (assocLookup (pyLower c.name) st.command_collections).isNone
  · simp [unload_command_collection, h]
  · cases hu : c.on_unload <;> simp [unload_command_collection, h, hu]

theorem unload_command_collection_registry_cases (st : ClientState)
    (c : Collection) :
    ((unload_command_collection st c).1).command_collections
        = st.command_collections ∨
    ((unload_command_collection st c).1).command_collections
        = assocErase (pyLower c.name) st.command_collections := by
  by_cases h : (assocLookup (pyLower c.name) st.command_collections).isNone
  · left; simp [unload_command_collection, h]
  · cases hu : c.on_unload
    · left; simp [unload_command_collection, h, hu]
    · right; simp [unload_command_collection, h, hu]

theorem load_collections_loop_preserves (l : List Collection)
    (st : ClientState) :
    ((load_collections_loop st l).1).module_cache = st.module_cache ∧
    ((load_collections_loop st l).1).collections_cache = st.collections_cache ∧
    ((load_collections_loop st l).1).unloaded_extensions = st.unloaded_extensions := by
  induction l generalizing st with
  | nil => simp [load_collections_loop]
  | cons c rest ih =>
    have hp := load_command_collection_preserves st c
    unfold load_collections_loop
    cases hlc : load_command_collection st c with
    | mk st' res =>
      rw [hlc] at hp
      cases res with
      | some e => simpa using ⟨hp.1, hp.2.1, hp.2.2.1⟩
      | none =>
        have := ih st'
        simp only at hp ⊢
        exact ⟨by rw [this.1, hp.1], by rw [this.2.1, hp.2.1],
          by rw [this.2.2, hp.2.2.1]⟩

theorem unload_collections_loop_preserves (l : List Collection)
    (st : ClientState) :
    ((unload_collections_loop st l).1).module_cache = st.module_cache ∧
    ((unload_collections_loop st l).1).collections_cache = st.collections_cache ∧
    ((unload_collections_loop st l).1).unloaded_extensions = st.unloaded_extensions := by
  induction l generalizing st with
  | nil => simp [unload_collections_loop]
  | cons c rest ih =>
    have hp := unload_command_collection_preserves st c
    unfold unload_collections_loop
    cases hlc : unload_command_collection st c with
    | mk st' res =>
      rw [hlc] at hp
      cases res with
      | some e => simpa using ⟨hp.1, hp.2.1, hp.2.2.1⟩
      | none =>
        have := ih st'
        simp only at hp ⊢
        exact ⟨by rw [this.1, hp.1], by rw [this.2.1, hp.2.1],
          by rw [this.2.2, hp.2.2.1]⟩

theorem regInv_register (st : ClientState) (c : Collection) (h : RegInv st) :
    RegInv ((load_command_collection st c).1) := by
  by_cases hl : (assocLookup (pyLower c.name) st.command_collections).isSome
  · simpa [load_command_collection, hl] using h
  · have hnone : assocLookup (pyLower c.name) st.command_collections = none := by
      cases hx : assocLookup (pyLower c.name) st.command_collections
      · rfl
      · simp [hx] at hl
    have hnotin := (assocLookup_eq_none_iff _ _).mp hnone
    constructor
    · simp only [load_command_collection, hl, if_false, Bool.false_eq_true]
      simp only [List.map_append, List.map_cons, List.map_nil]
      rw [List.nodup_append]
      exact ⟨h.1, List.nodup_singleton _, by
        intro a ha hb
        simp at hb
        subst hb
        exact hnotin ha⟩
    · intro p hp
      simp only [load_command_collection, hl, if_false, Bool.false_eq_true] at hp
      rcases List.mem_append.mp hp with hin | hin
      · exact h.2 p hin
      · simp at hin
        subst hin
        rfl

theorem regInv_unregister (st : ClientState) (c : Collection)
    (h : RegInv st) : RegInv ((unload_command_collection st c).1) := by
  rcases unload_command_collection_registry_cases st c with hc | hc
  · exact ⟨by rw [hc]; exact h.1, by rw [hc]; exact h.2⟩
  · constructor
    · rw [hc]
      exact h.1.sublist ((List.filter_sublist _).map Prod.fst)
    · rw [hc]
      intro p hp
      exact h.2 p (List.mem_filter.mp hp).1

theorem regInv_applyRegOps (ops : List RegOp) (st : ClientState)
    (h : RegInv st) : RegInv (applyRegOps st ops) := by
  induction ops generalizing st with
  | nil => simpa [applyRegOps] using h
  | cons op rest ih =>
    cases op with
    | register c => exact ih _ (regInv_register st c h)
    | unregister c => exact ih _ (regInv_unregister st c h)

theorem close_loop_lookup_none (l : List (String × Collection))
    (st : ClientState) (k : String)
    (h : assocLookup k st.command_collections = none) :
    assocLookup k (close_loop st l).command_collections = none := by
  induction l generalizing st with
  | nil => simpa [close_loop] using h
  | cons p rest ih =>
    obtain ⟨k', c⟩ := p
    rw [close_loop]
    apply ih
    rcases unload_command_collection_registry_cases st c with hc | hc
    · rw [hc]; exact h
    · rw [hc]; exact assocErase_lookup_none _ _ _ h

theorem close_loop_removes (l : List (String × Collection))
    (st : ClientState) (k : String) (c : Collection)
    (hmem : (k, c) ∈ l) (hok : c.on_unload = .ok ())
    (hk : k = pyLower c.name) :
    assocLookup k (close_loop st l).command_collections = none := by
  induction l generalizing st with
  | nil => cases hmem
  | cons p rest ih =>
    rcases List.mem_cons.mp hmem with heq | hin
    · subst heq
      rw [close_loop]
      apply close_loop_lookup_none
      by_cases hl : (assocLookup (pyLower c.name) st.command_collections).isNone
      · rw [unload_command_collection]
        simp only [hl, if_true]
        rw [hk]
        exact Option.isNone_iff_eq_none.mp hl
      · rw [unload_command_collection]
        simp only [hl, if_false, Bool.false_eq_true, hok]
        rw [hk]
        exact assocLookup_assocErase_self _ _
    · obtain ⟨k', c'⟩ := p
      rw [close_loop]
      exact ih _ hin

theorem load_extension_already_loaded (env : PyEnv) (st : ClientState)
    (extension_name : String)
    (h1 : (assocLookup extension_name st.module_cache).isSome = true)
    (h2 : st.unloaded_extensions.contains extension_name = false) :
    load_extension env st extension_name =
      (st, some (PyErr.moduleAlreadyLoaded
        ("Module " ++ extension_name ++ " is already loaded"))) := by
  have hnotnone : (assocLookup extension_name st.module_cache).isNone = false := by
    cases hx : assocLookup extension_name st.module_cache
    · simp [hx] at h1
    · simp
  have hmem : extension_name ∉ st.unloaded_extensions := by
    simpa using h2
  rw [load_extension, resolveModule]
  simp [hnotnone, h2, hmem]

theorem resolveModule_preserves_registry (env : PyEnv) (st : ClientState)
    (extension_name : String) :
    ((resolveModule env st extension_name).1).command_collections
        = st.command_collections ∧
    ((resolveModule env st extension_name).1).collections_cache
        = st.collections_cache := by
  rw [resolveModule]
  by_cases h1 : (assocLookup extension_name st.module_cache).isNone
  · cases him : env.import_module extension_name <;> simp [h1, him]
  · by_cases hm : extension_name ∈ st.unloaded_extensions
    · cases hmc : assocLookup extension_name st.module_cache
      · exact absurd (by simp [hmc]) h1
      · rename_i m
        cases hre : env.reload m <;> simp [h1, hm, hmc, hre]
    · simp [h1, hm]

theorem unload_extension_success (st : ClientState) (extension_name : String)
    (st1 : ClientState)
    (h : unload_extension st extension_name = (st1, none)) :
    (assocLookup extension_name st.module_cache).isSome = true ∧
    st.unloaded_extensions.contains extension_name = false ∧
    st1.module_cache = st.module_cache ∧
    st1.collections_cache = st.collections_cache ∧
    st1.unloaded_extensions = extension_name :: st.unloaded_extensions := by
  rw [unload_extension] at h
  by_cases hg : ((assocLookup extension_name st.module_cache).isNone
      || st.unloaded_extensions.contains extension_name) = true
  · rw [if_pos hg] at h
    simp at h
  · rw [if_neg hg] at h
    rw [Bool.or_eq_true, not_or] at hg
    have hsome : (assocLookup extension_name st.module_cache).isSome = true := by
      cases hx : assocLookup extension_name st.module_cache
      · exact absurd (by simp [hx]) hg.1
      · simp
    have hcont : st.unloaded_extensions.contains extension_name = false := by
      cases hx : st.unloaded_extensions.contains extension_name
      · rfl
      · exact absurd hx hg.2
    refine ⟨hsome, hcont, ?_⟩
    cases hcc : assocLookup extension_name st.collections_cache with
    | none =>
      rw [hcc] at h
      simp at h
    | some colls =>
      rw [hcc] at h
      dsimp only at h
      cases hloop : unload_collections_loop st colls with
      | mk st' res =>
        rw [hloop] at h
        cases res with
        | some e => simp at h
        | none =>
          have hpres := unload_collections_loop_preserves colls st
          rw [hloop] at hpres
          simp only at hpres
          have hA := congrArg Prod.fst h
          dsimp only at hA
          subst hA
          refine ⟨hpres.1, hpres.2.1, ?_⟩
          have hnm : extension_name ∉ st.unloaded_extensions := by
            simpa using hcont
          simp only [pySetAdd, hpres.2.2]
          simp [hnm]

theorem load_extension_fail_after_unloaded (env : PyEnv) (st : ClientState)
    (extension_name : String) (st2 : ClientState) (e : PyErr)
    (hmc : (assocLookup extension_name st.module_cache).isSome = true)
    (hun : st.unloaded_extensions.contains extension_name = true)
    (hfail : load_extension env st extension_name = (st2, some e)) :
    st2.unloaded_extensions = st.unloaded_extensions.erase extension_name ∧
    (assocLookup extension_name st2.module_cache).isSome = true := by
  have hnotnone : (assocLookup extension_name st.module_cache).isNone = false := by
    cases hx : assocLookup extension_name st.module_cache
    · simp [hx] at hmc
    · simp
  have hmem : extension_name ∈ st.unloaded_extensions := by
    simpa using hun
  cases hx : assocLookup extension_name st.module_cache with
  | none => simp [hx] at hmc
  | some m =>
    rw [load_extension, resolveModule] at hfail
    simp only [hnotnone, Bool.false_eq_true, if_false, hun, hx] at hfail
    rw [if_neg (by simp [hmem])] at hfail
    cases hre : env.reload m with
    | error e' =>
      rw [hre] at hfail
      dsimp only at hfail
      have h1 := congrArg Prod.fst hfail
      dsimp only at h1
      subst h1
      exact ⟨rfl, by simpa using hmc⟩
    | ok m2 =>
      rw [hre] at hfail
      rw [if_neg (by simp)] at hfail
      dsimp only at hfail
      cases hsu : m2.setup with
      | none =>
        rw [hsu] at hfail
        dsimp only at hfail
        have h1 := congrArg Prod.fst hfail
        dsimp only at h1
        subst h1
        exact ⟨rfl, by simp [assocLookup_assocInsert_self]⟩
      | some r =>
        cases r with
        | error e' =>
          rw [hsu] at hfail
          dsimp only at hfail
          have h1 := congrArg Prod.fst hfail
          dsimp only at h1
          subst h1
          exact ⟨rfl, by simp [assocLookup_assocInsert_self]⟩
        | ok colls =>
          rw [hsu] at hfail
          dsimp only at hfail
          cases hloop : load_collections_loop
              { st with
                  unloaded_extensions :=
                    st.unloaded_extensions.erase extension_name
                  module_cache :=
                    assocInsert extension_name m2 st.module_cache } colls with
          | mk st' res =>
            have hpres := load_collections_loop_preserves colls
              { st with
                  unloaded_extensions :=
                    st.unloaded_extensions.erase extension_name
                  module_cache :=
                    assocInsert extension_name m2 st.module_cache }
            rw [hloop] at hpres hfail
            simp only at hpres
            cases res with
            | some e' =>
              dsimp only at hfail
              have h1 := congrArg Prod.fst hfail
              dsimp only at h1
              subst h1
              exact ⟨hpres.2.2, by simp [hpres.1, assocLookup_assocInsert_self]⟩
            | none =>
              dsimp only at hfail
              have h2 := congrArg Prod.snd hfail
              simp at h2

/-! ## Claim theorems -/

/-- C1: every wrapped callback first runs the collection check on the
invocation context; if the check raises any exception, the original
callback is never invoked and the error hook is invoked exactly once with
the context and that exception, its result being returned; if the check
completes without raising, the original callback is invoked (exactly once)
and its result is returned unchanged, the error hook never running. -/
theorem claim_C1_wrapper_check_protocol {Ctx ε ρ : Type}
    [DecidableEq Ctx] [DecidableEq ε]
    (collection_check : Ctx → Except ε Unit)
    (handle_collection_check_error : Ctx → ε → Except ε ρ)
    (callback : Ctx → Except ε ρ) (cmd : Ctx) :
    (cmd_with_collection_check collection_check
        handle_collection_check_error callback cmd).2.head?
      = some (CallEvent.checkCall cmd) ∧
    (∀ e, collection_check cmd = .error e →
      (cmd_with_collection_check collection_check
          handle_collection_check_error callback cmd).1
        = handle_collection_check_error cmd e ∧
      (cmd_with_collection_check collection_check
          handle_collection_check_error callback cmd).2.count
          (CallEvent.errorHookCall cmd e) = 1 ∧
      (∀ c, CallEvent.callbackCall c ∉
        (cmd_with_collection_check collection_check
            handle_collection_check_error callback cmd).2)) ∧
    (collection_check cmd = .ok () →
      (cmd_with_collection_check collection_check
          handle_collection_check_error callback cmd).1 = callback cmd ∧
      (cmd_with_collection_check collection_check
          handle_collection_check_error callback cmd).2.count
          (CallEvent.callbackCall cmd) = 1 ∧
      (∀ c e, CallEvent.errorHookCall c e ∉
        (cmd_with_collection_check collection_check
            handle_collection_check_error callback cmd).2)) := by
  cases hchk : collection_check cmd with
  | error ex =>
    refine ⟨by simp [cmd_with_collection_check, hchk], ?_, ?_⟩
    · intro e he
      injection he with h
      subst h
      refine ⟨by simp [cmd_with_collection_check, hchk], ?_, ?_⟩
      · simp [cmd_with_collection_check, hchk, List.count_cons]
      · intro c
        simp [cmd_with_collection_check, hchk]
    · intro hok
      simp at hok
  | ok u =>
    refine ⟨by simp [cmd_with_collection_check, hchk], ?_, ?_⟩
    · intro e he
      simp at he
    · intro hok
      refine ⟨by simp [cmd_with_collection_check, hchk], ?_, ?_⟩
      · simp [cmd_with_collection_check, hchk, List.count_cons]
      · intro c e
        simp [cmd_with_collection_check, hchk]

/-- Witness for C1 at the concrete hooks chkW, errhW, funW and context 0,
where the check raises. -/
theorem claim_C1_witness :
    (cmd_with_collection_check chkW errhW funW 0).1 = errhW 0 "denied" ∧
    (cmd_with_collection_check chkW errhW funW 0).2.count
      (CallEvent.errorHookCall 0 "denied") = 1 ∧
    (∀ c, CallEvent.callbackCall c ∉
      (cmd_with_collection_check chkW errhW funW 0).2) :=
  (claim_C1_wrapper_check_protocol chkW errhW funW 0).2.1 "denied" rfl

/-- C5 as amended: the command tree walker is total and returns exactly
the strict descendants of its argument in parent-before-children order
with siblings in declaration order (the spec-side enumeration
preorderDescendants); the claim that it does so by an explicit iterative
frontier rather than by recursion whose depth grows with the tree depth
is refuted separately. -/
theorem claim_C5_walker_preorder (command : Cmd) :
    getAllChildren command = preorderDescendants command :=
  getAllChildrenList_eq_preorder command.children

/-- Counterexample to C5 as stated: _get_all_children is implemented by
direct recursion, not an explicit frontier; on a linear tree of depth n
the nesting depth of its recursive self-calls is n, growing without bound
with the tree depth, contrary to the claim that no recursion whose depth
grows with the tree depth is used. -/
theorem claim_C5_counterexample :
    recursionDepth (chainCmd 5) = 5 ∧ recursionDepth (chainCmd 500) = 500 := by
  constructor
  · have h := recursionDepthList_chain 4
    rw [recursionDepth]
    rw [show chainCmd 5 = Cmd.mk "node" [chainCmd 4] from rfl]
    rw [Cmd.children, h]
  · have h := recursionDepthList_chain 499
    rw [recursionDepth]
    rw [show chainCmd 500 = Cmd.mk "node" [chainCmd 499] from rfl]
    rw [Cmd.children, h]

/-- C9: at construction the wrapper is applied, when the check_children
option (default true) is enabled, to every top-level command and to every
command the tree walker produces for it - together exactly every node of
every command tree, each exactly once, in parent-before-children order -
and, when the option is disabled, to exactly the top-level commands, no
descendant being touched; in particular on the concrete tree with two
levels of nested children all three levels are intercepted when enabled
and only the top level when disabled. -/
theorem claim_C9_wrap_targets :
    check_children_default = true ∧
    (∀ commands : List Cmd,
      collectionWrapTargets true commands = commands.flatMap allNodes) ∧
    (∀ commands : List Cmd,
      collectionWrapTargets false commands = commands) ∧
    collectionWrapTargets true [threeLevelCmd]
      = [threeLevelCmd, secondLevelCmd, thirdLevelCmd] ∧
    collectionWrapTargets false [threeLevelCmd] = [threeLevelCmd] := by
  have htrue : ∀ commands : List Cmd,
      collectionWrapTargets true commands = commands.flatMap allNodes := by
    intro commands
    simp only [collectionWrapTargets, if_true]
    apply List.flatMap_congr
    intro c _
    rw [allNodes, getAllChildren, preorderDescendants,
      getAllChildrenList_eq_preorder]
  have hfalse : ∀ commands : List Cmd,
      collectionWrapTargets false commands = commands := by
    intro commands
    simp [collectionWrapTargets]
  refine ⟨rfl, htrue, hfalse, ?_, hfalse [threeLevelCmd]⟩
  rw [htrue]
  simp [threeLevelCmd, secondLevelCmd, thirdLevelCmd, allNodes,
    preorderDescendants, preorderDescendantsList, Cmd.children]

/-- C2: from the empty registry, no sequence of register and unregister
operations ever produces two entries with the same lowercase key (every
entry is keyed by the lowercase collection name and keys never repeat),
and registering a collection while another whose name has the same
lowercase form is registered fails with CollectionAlreadyLoadedException
and leaves the state unchanged. -/
theorem claim_C2_registry_key_uniqueness :
    (∀ ops : List RegOp, RegInv (applyRegOps initialClientState ops)) ∧
    (∀ (st : ClientState) (c1 c2 : Collection),
      assocLookup (pyLower c2.name) st.command_collections = some c1 →
      pyLower c1.name = pyLower c2.name →
      load_command_collection st c2 =
        (st, some (PyErr.collectionAlreadyLoaded
          ("Collection " ++ c2.reprStr ++ " is already loaded")))) := by
  constructor
  · intro ops
    exact regInv_applyRegOps ops initialClientState
      ⟨by simp [initialClientState], by simp [initialClientState]⟩
  · intro st c1 c2 hl _
    have hsome : (assocLookup (pyLower c2.name) st.command_collections).isSome
        = true := by simp [hl]
    simp [load_command_collection, hsome]

/-- Witness for C2: registering Foo then FOO; the invariant holds after
the operation sequence and the second registration fails with
CollectionAlreadyLoadedException, leaving the state unchanged. -/
theorem claim_C2_witness :
    RegInv (applyRegOps initialClientState
      [RegOp.register collFoo, RegOp.register collFOO]) ∧
    load_command_collection stC2 collFOO =
      (stC2, some (PyErr.collectionAlreadyLoaded
        ("Collection " ++ collFOO.reprStr ++ " is already loaded"))) :=
  ⟨claim_C2_registry_key_uniqueness.1 [RegOp.register collFoo, RegOp.register collFOO],
    claim_C2_registry_key_uniqueness.2 stC2 collFoo collFOO (by decide) (by decide)⟩

/-- C3: loading an extension name that is cached and not in the unloaded
set fails with ModuleAlreadyLoadedException, and the failing call returns
with the state exactly as before: registry, module cache, collections
cache and unloaded set untouched. -/
theorem claim_C3_second_load_already_loaded (env : PyEnv) (st : ClientState)
    (extension_name : String)
    (h1 : (assocLookup extension_name st.module_cache).isSome = true)
    (h2 : st.unloaded_extensions.contains extension_name = false) :
    load_extension env st extension_name =
      (st, some (PyErr.moduleAlreadyLoaded
        ("Module " ++ extension_name ++ " is already loaded"))) :=
  load_extension_already_loaded env st extension_name h1 h2

/-- Witness for C3: with ext cached and loaded, a second load fails with
ModuleAlreadyLoadedException and returns the state unchanged. -/
theorem claim_C3_witness :
    load_extension envC3 stC3 "ext" =
      (stC3, some (PyErr.moduleAlreadyLoaded
        ("Module ext is already loaded"))) :=
  claim_C3_second_load_already_loaded envC3 stC3 "ext" (by decide) (by decide)

/-- C4 as amended: reload is exactly unload followed by load, but when the
load step fails after the unload step succeeded, the name is no longer in
the unloaded set (load removes the unloaded mark before any failure can
occur) while remaining in the module cache, so a subsequent load fails
with ModuleAlreadyLoadedException instead of succeeding by the re-import
path as the claim stated. -/
theorem claim_C4_reload_failure_state (env : PyEnv)
    (st st1 st2 : ClientState) (extension_name : String) (e : PyErr)
    (hu : unload_extension st extension_name = (st1, none))
    (hl : load_extension env st1 extension_name = (st2, some e)) :
    reload_extension env st extension_name = (st2, some e) ∧
    st2.unloaded_extensions.contains extension_name = false ∧
    (assocLookup extension_name st2.module_cache).isSome = true ∧
    load_extension env st2 extension_name =
      (st2, some (PyErr.moduleAlreadyLoaded
        ("Module " ++ extension_name ++ " is already loaded"))) := by
  obtain ⟨hsome, hcont, hmc1, _, hun1⟩ :=
    unload_extension_success st extension_name st1 hu
  have hmc1' : (assocLookup extension_name st1.module_cache).isSome = true := by
    rw [hmc1]
    exact hsome
  have hun1' : st1.unloaded_extensions.contains extension_name = true := by
    rw [hun1]
    simp
  obtain ⟨hu2, hm2⟩ := load_extension_fail_after_unloaded env st1
    extension_name st2 e hmc1' hun1' hl
  have hu2' : st2.unloaded_extensions = st.unloaded_extensions := by
    rw [hu2, hun1]
    exact List.erase_cons_head _ _
  have hcont2 : st2.unloaded_extensions.contains extension_name = false := by
    rw [hu2']
    exact hcont
  refine ⟨?_, hcont2, hm2, ?_⟩
  · rw [reload_extension, hu]
    exact hl
  · exact load_extension_already_loaded env st2 extension_name hm2 hcont2

/-- Witness for C4 at the concrete greetings scenario: unload succeeds,
the load step of the reload fails because the re-imported setup raises,
and afterwards the name is not marked unloaded, is still cached, and a
further load fails with ModuleAlreadyLoadedException. -/
theorem claim_C4_witness :
    reload_extension envC4 stC4 "greetings" =
      (stC4f, some (PyErr.moduleSetup
        ("Module <module greetings> setup function raised: boom"))) ∧
    stC4f.unloaded_extensions.contains "greetings" = false ∧
    (assocLookup "greetings" stC4f.module_cache).isSome = true ∧
    load_extension envC4 stC4f "greetings" =
      (stC4f, some (PyErr.moduleAlreadyLoaded
        ("Module greetings is already loaded"))) :=
  claim_C4_reload_failure_state envC4 stC4 stC4u stC4f "greetings"
    (PyErr.moduleSetup
      ("Module <module greetings> setup function raised: boom"))
    (by decide) (by decide)

/-- Counterexample to C4 as stated: in the greetings scenario the unload
step succeeds and the load step fails, yet the extension does not end
cached-and-marked-unloaded: the subsequent load fails with
ModuleAlreadyLoadedException instead of succeeding by the re-import path,
because load_extension removed the unloaded mark before its failure. -/
theorem claim_C4_counterexample :
    (unload_extension stC4 "greetings").2 = none ∧
    (reload_extension envC4 stC4 "greetings").2 =
      some (PyErr.moduleSetup
        ("Module <module greetings> setup function raised: boom")) ∧
    ((reload_extension envC4 stC4 "greetings").1).unloaded_extensions = [] ∧
    (load_extension envC4 (reload_extension envC4 stC4 "greetings").1
        "greetings").2 =
      some (PyErr.moduleAlreadyLoaded
        ("Module greetings is already loaded")) := by
  decide

/-- C6 as amended: get_command_collection is a case-insensitive lookup
among the registered collections, returning the one keyed by the
lowercase form of the requested name; when no such key exists it fails
by raising the builtin KeyError - not one of the library's own
distinguishable error kinds (not a ModularCommandClientException). -/
theorem claim_C6_lookup_keyerror (st : ClientState)
    (collection_name : String) :
    (∀ c, assocLookup (pyLower collection_name) st.command_collections
        = some c →
      get_command_collection st collection_name = .ok c) ∧
    (assocLookup (pyLower collection_name) st.command_collections = none →
      get_command_collection st collection_name =
        .error (PyErr.keyError (pyLower collection_name)) ∧
      (PyErr.keyError (pyLower collection_name)).isModularClientException
        = false) ∧
    (∀ other : String, pyLower other = pyLower collection_name →
      get_command_collection st other
        = get_command_collection st collection_name) := by
  refine ⟨?_, ?_, ?_⟩
  · intro c hc
    simp [get_command_collection, hc]
  · intro hn
    exact ⟨by simp [get_command_collection, hn], rfl⟩
  · intro other hother
    rw [get_command_collection, get_command_collection, hother]

/-- Witness for C6: the uppercase query HELLO finds the collection
registered under hello, and a query for an absent name raises the builtin
KeyError, which is not a library error kind. -/
theorem claim_C6_witness :
    get_command_collection stC6 "HELLO" = .ok collHello ∧
    (get_command_collection initialClientState "Ghost" =
        .error (PyErr.keyError "ghost") ∧
      (PyErr.keyError "ghost").isModularClientException = false) :=
  ⟨(claim_C6_lookup_keyerror stC6 "HELLO").1 collHello (by decide),
    (claim_C6_lookup_keyerror initialClientState "Ghost").2.1 (by decide)⟩

/-- Counterexample to C6 as stated: the failure on a missing name is the
builtin KeyError, not a distinguishable library registry error kind - it
is not an instance of ModularCommandClientException, so a caller
branching on the library's error classes does not catch it. -/
theorem claim_C6_counterexample :
    get_command_collection initialClientState "Hello" =
      .error (PyErr.keyError "hello") ∧
    (PyErr.keyError "hello").isModularClientException = false := by
  decide

/-- C7: when the setup entry point of the module being loaded raises, the
exception is caught and load_extension fails with ModuleSetupException
whose message carries the original failure's message, and the registry is
exactly as before the call: no collection from that setup call is
registered. -/
theorem claim_C7_setup_failure (env : PyEnv) (st st1 : ClientState)
    (extension_name : String) (m : PyModule) (e : PyErr)
    (hres : resolveModule env st extension_name = (st1, .ok m))
    (hsetup : m.setup = some (.error e)) :
    load_extension env st extension_name =
      (st1, some (PyErr.moduleSetup
        ("Module " ++ m.mrepr ++ " setup function raised: " ++ e.msg))) ∧
    st1.command_collections = st.command_collections := by
  constructor
  · rw [load_extension, hres]
    dsimp only
    rw [hsetup]
  · have hp := resolveModule_preserves_registry env st extension_name
    rw [hres] at hp
    exact hp.1

/-- Witness for C7: importing a module whose setup raises makes load fail
with ModuleSetupException carrying the original message, the registry
untouched. -/
theorem claim_C7_witness :
    load_extension envC7 initialClientState "broken" =
      (initialClientState, some (PyErr.moduleSetup
        ("Module <module broken> setup function raised: db down"))) ∧
    initialClientState.command_collections
      = initialClientState.command_collections :=
  claim_C7_setup_failure envC7 initialClientState initialClientState
    "broken" modC7 (PyErr.pyException "db down") (by decide) rfl

/-- C8: the close operation always runs to completion, attempting to
unregister every registered collection while discarding any individual
failure (including a raising unload hook): afterwards every collection
whose unload hook does not raise is no longer registered, and the
dispatch collaborator's own shutdown has been invoked. Totality is built
into the model: close is a function, returning for every state. -/
theorem claim_C8_close_best_effort (st : ClientState)
    (hkeys : ∀ p ∈ st.command_collections, p.1 = pyLower p.2.name) :
    (close st).dispatch_closed = true ∧
    ∀ k c, (k, c) ∈ st.command_collections → c.on_unload = .ok () →
      assocLookup k (close st).command_collections = none := by
  constructor
  · simp [close]
  · intro k c hmem hok
    have hk : k = pyLower c.name := hkeys (k, c) hmem
    simp only [close]
    exact close_loop_removes st.command_collections st k c hmem hok hk

/-- Witness for C8: with a collection whose unload hook raises registered
before a clean one, close still reports the dispatch shutdown and the
clean collection is unregistered. -/
theorem claim_C8_witness :
    (close stC8).dispatch_closed = true ∧
    assocLookup "good" (close stC8).command_collections = none :=
  ⟨(claim_C8_close_best_effort stC8 (by decide)).1,
    (claim_C8_close_best_effort stC8 (by decide)).2 "good" collGood
      (by decide) rfl⟩

/-- C10: unregistering a registered collection consults its unload hook
before removing the registry entry, atomically on error: when the hook
raises, the exception propagates to the caller, the state is returned
unchanged, and the collection is still registered under its lowercase
key. -/
theorem claim_C10_unregister_hook_atomic (st : ClientState)
    (collection : Collection) (e : PyErr)
    (hreg : (assocLookup (pyLower collection.name)
      st.command_collections).isSome = true)
    (hraise : collection.on_unload = .error e) :
    unload_command_collection st collection = (st, some e) ∧
    (assocLookup (pyLower collection.name)
      ((unload_command_collection st collection).1).command_collections).isSome
        = true := by
  have hnotnone : (assocLookup (pyLower collection.name)
      st.command_collections).isNone = false := by
    cases hx : assocLookup (pyLower collection.name) st.command_collections
    · simp [hx] at hreg
    · simp
  have h1 : unload_command_collection st collection = (st, some e) := by
    rw [unload_command_collection]
    simp [hnotnone, hraise]
  exact ⟨h1, by rw [h1]; exact hreg⟩

/-- Witness for C10: a registered collection whose unload hook raises
stays registered and the hook's exception is surfaced. -/
theorem claim_C10_witness :
    unload_command_collection stC10 collRaise =
      (stC10, some (PyErr.pyException "cancel failed")) ∧
    (assocLookup "tasks"
      ((unload_command_collection stC10 collRaise).1).command_collections).isSome
        = true :=
  claim_C10_unregister_hook_atomic stC10 collRaise
    (PyErr.pyException "cancel failed") (by decide) rfl
